import Mathlib

/-!
# Verification of the Avatar Animator single-page application

A shallow embedding of `src/App.tsx`: the session state held by the `App`
component, the `checkApiKey` / `handleSelectKey` handlers, and the
`generateAnimation` job orchestrator (submit → poll loop → download), together
with theorems about the claims of the specification.

External effects (the generative-video service, the browser `fetch`, the AI
Studio key helpers) are modelled by an environment record `Env` supplying the
outcome of each external call; the JavaScript exception mechanism is modelled
by `Except GenError`, where `GenError.message` is the possibly-absent
`err.message` field.  The poll loop of `generateAnimation` is a genuine
unbounded `while` loop, so it is embedded with explicit fuel: a run that
exhausts its fuel returns `none` (the loop is still running), and
non-termination is expressed as `∀ fuel, ... = none`.

Every user-visible display update (`setLoadingStep`, `setError(null)`) and
every external call made during a run is recorded in an event trace, so the
theorems can speak about what was displayed and in which order.
-/

namespace AvatarAnimator

/-- `video.uri` of one generated video (`uri` may be absent in the JSON). -/
structure Video where
  uri : Option String
deriving DecidableEq, Repr

/-- one element of `response.generatedVideos` (`video` may be absent). -/
structure GeneratedVideo where
  video : Option Video
deriving DecidableEq, Repr

/-- `operation.response` (`generatedVideos` may be absent). -/
structure OpResponse where
  generatedVideos : Option (List GeneratedVideo)
deriving DecidableEq, Repr

/-- The operation handle returned by `generateVideos` / `getVideosOperation`:
a completion flag `done` and, possibly, a response payload. -/
structure Operation where
  done : Bool
  response : Option OpResponse
deriving DecidableEq, Repr

/-- The optional-chaining access
`operation.response?.generatedVideos?.[0]?.video?.uri` of `App.tsx` line 121:
`none` as soon as any link of the chain is absent. -/
def Operation.firstUri (op : Operation) : Option String :=
  match op.response with
  | none => none
  | some r =>
    match r.generatedVideos with
    | none => none
    | some vs =>
      match vs[0]? with
      | none => none
      | some gv =>
        match gv.video with
        | none => none
        | some v => v.uri

/-- JavaScript truthiness of the uri in the `if` of line 121: `undefined`
and the empty string are falsy, every other string is truthy. -/
def uriIfTruthy : Option String → Option String
  | none => none
  | some u => if u = "" then none else some u

/-- A thrown JavaScript error; `message` is the possibly-absent
`err.message`. -/
structure GenError where
  message : Option String
deriving DecidableEq, Repr

deriving instance DecidableEq for Except

/-- The React state of the `App` component (lines 33–40 of `App.tsx`),
one field per `useState` hook. -/
structure SessionState where
  hasApiKey : Bool
  selectedImage : Option String
  prompt : String
  aspectRatio : String
  isGenerating : Bool
  loadingStep : String
  generatedVideoUrl : Option String
  error : Option String
deriving DecidableEq, Repr

/-- The initial values of the `useState` hooks. -/
def initState : SessionState :=
  { hasApiKey := false
  , selectedImage := none
  , prompt := ""
  , aspectRatio := "9:16"
  , isGenerating := false
  , loadingStep := ""
  , generatedVideoUrl := none
  , error := none }

/-- The five rotating poll-phase messages (lines 105–111). -/
def loadingMessages : List String :=
  [ "Analyzing avatar features..."
  , "Simulating physics and movement..."
  , "Rendering commercial lighting..."
  , "Finalizing high-quality motion..."
  , "Almost there, polishing textures..." ]

def initializingMsg : String := "Initializing AI engine..."

def uploadingMsg : String := "Uploading reference frame to Veo..."

def downloadingMsg : String := "Downloading final commercial asset..."

def noVideoMsg : String := "No video was generated in the response."

def expiredKeyMsg : String :=
  "API Key session expired or invalid. Please select a paid project key."

def genericErrMsg : String :=
  "An error occurred during generation. Please try again."

def notFoundSig : String := "Requested entity was not found"

def defaultMotion : String := "Natural movement in high quality commercial lighting"

def promptTemplate : String := "Animate this character: "

/-- `needle.isPrefixOf hay || ...` on tails: models JavaScript
`hay.includes(needle)` (substring containment). -/
def jsIncludes (needle : List Char) : List Char → Bool
  | [] => needle.isEmpty
  | c :: t => needle.isPrefixOf (c :: t) || jsIncludes needle t

/-- `err.message?.includes("Requested entity was not found")` of line 132:
an absent message is falsy, otherwise substring containment. -/
def msgIndicatesNotFound : Option String → Bool
  | none => false
  | some m => jsIncludes notFoundSig.data m.data

/-- `err.message || "An error occurred during generation. Please try again."`
of line 137: an absent or empty message is falsy and selects the fallback. -/
def displayedMessage : Option String → String
  | none => genericErrMsg
  | some m => if m = "" then genericErrMsg else m

/-- JavaScript `s.split(sep)` for a one-character separator, on the
character list of the string. -/
def splitOnChar (sep : Char) : List Char → List (List Char)
  | [] => [[]]
  | c :: t =>
    match splitOnChar sep t with
    | [] => if c = sep then [[], [c]] else [[c]]
    | r :: rs => if c = sep then [] :: r :: rs else (c :: r) :: rs

/-- JavaScript `s.split(sep)` for a one-character separator. -/
def jsSplit (sep : Char) (s : String) : List String :=
  (splitOnChar sep s.data).map String.mk

/-- The argument record of the `ai.models.generateVideos` call
(lines 91–103).  `imageBytes` and `mimeType` are `Option` because the
JavaScript index accesses may yield `undefined`. -/
structure GenRequest where
  model : String
  prompt : String
  imageBytes : Option String
  mimeType : Option String
  numberOfVideos : Nat
  resolution : String
  aspectRatio : String
deriving DecidableEq, Repr

/-- Builds the `generateVideos` request: the prompt template with the
user prompt (or, when it is the empty string and hence falsy, the default
motion phrase), `selectedImage.split(',')[1]` as the image bytes,
`selectedImage.split(';')[0].split(':')[1]` as the mime type, and the fixed
generation parameters. -/
def buildRequest (img promptText ar : String) : GenRequest :=
  { model := "veo-3.1-fast-generate-preview"
  , prompt := promptTemplate ++ (if promptText = "" then defaultMotion else promptText)
  , imageBytes := (jsSplit ',' img)[1]?
  , mimeType := (jsSplit ':' ((jsSplit ';' img).headD ""))[1]?
  , numberOfVideos := 1
  , resolution := "720p"
  , aspectRatio := ar }

/-- Observable events of one `generateAnimation` run, in order:
display updates (`setLoadingStep` and the initial `setError(null)`),
the timed delay, and the three kinds of external call. -/
inductive Event where
  | clearError : Event
  | displayStep : String → Event
  | wait : Nat → Event
  | submitCall : GenRequest → Event
  | pollCall : Event
  | fetchCall : String → Event
deriving DecidableEq, Repr

/-- The external world: the process-level API key, and the outcome of each
external call.  `pollRes i` is the outcome of the `i`-th
`ai.operations.getVideosOperation` call of the run; `fetchRes` maps the full
download URL to the object URL of the fetched blob (it folds together
`fetch`, `response.blob()` and `URL.createObjectURL`, all external). -/
structure Env where
  apiKey : String
  submitRes : GenRequest → Except GenError Operation
  pollRes : Nat → Except GenError Operation
  fetchRes : String → Except GenError String

/-- `loadingMessages[messageIndex % loadingMessages.length]` of line 115. -/
def pollMsg (i : Nat) : String :=
  loadingMessages.getD (i % loadingMessages.length) ""

/-- The `while (!operation.done)` loop of lines 113–119, with fuel.
Iteration `i` displays `pollMsg i`, waits 10000 ms, then re-fetches the
operation; a `none` result means the fuel was exhausted with the loop still
running. -/
def pollLoop (env : Env) : Nat → Nat → Operation →
    Option (Except GenError Operation × List Event)
  | 0, _, op => if op.done then some (Except.ok op, []) else none
  | fuel + 1, i, op =>
    if op.done then some (Except.ok op, [])
    else
      match env.pollRes i with
      | Except.error e =>
        some (Except.error e,
          [Event.displayStep (pollMsg i), Event.wait 10000, Event.pollCall])
      | Except.ok op2 =>
        match pollLoop env fuel (i + 1) op2 with
        | none => none
        | some (r, tr) =>
          some (r,
            Event.displayStep (pollMsg i) :: Event.wait 10000 :: Event.pollCall :: tr)

/-- The `try` block of `generateAnimation` (lines 81–129): submit, poll
until done, then—when the finished operation carries a truthy result
uri—fetch `uri + "&key=" + apiKey` and return the blob object URL.
`Except.error` is a thrown error (including the synthetic
"No video was generated in the response." of line 128), to be caught by the
`catch` block; `none` means the poll loop never terminated. -/
def runTry (env : Env) (fuel : Nat) (req : GenRequest) :
    Option (Except GenError String × List Event) :=
  match env.submitRes req with
  | Except.error e =>
    some (Except.error e, [Event.displayStep uploadingMsg, Event.submitCall req])
  | Except.ok op0 =>
    match pollLoop env fuel 0 op0 with
    | none => none
    | some (Except.error e, tr) =>
      some (Except.error e,
        Event.displayStep uploadingMsg :: Event.submitCall req :: tr)
    | some (Except.ok opF, tr) =>
      match uriIfTruthy opF.firstUri with
      | some uri =>
        match env.fetchRes (uri ++ "&key=" ++ env.apiKey) with
        | Except.error e =>
          some (Except.error e,
            Event.displayStep uploadingMsg :: Event.submitCall req ::
              (tr ++ [Event.displayStep downloadingMsg,
                      Event.fetchCall (uri ++ "&key=" ++ env.apiKey)]))
        | Except.ok blobUrl =>
          some (Except.ok blobUrl,
            Event.displayStep uploadingMsg :: Event.submitCall req ::
              (tr ++ [Event.displayStep downloadingMsg,
                      Event.fetchCall (uri ++ "&key=" ++ env.apiKey)]))
      | none =>
        some (Except.error { message := some noVideoMsg },
          Event.displayStep uploadingMsg :: Event.submitCall req :: tr)

/-- The `catch` block of lines 130–138: an error whose message contains the
not-found signature resets `hasApiKey` and shows the re-selection message;
every other error shows its own message (or the generic fallback). -/
def applyCatch (s : SessionState) (e : GenError) : SessionState :=
  if msgIndicatesNotFound e.message then
    { s with hasApiKey := false, error := some expiredKeyMsg }
  else
    { s with error := some (displayedMessage e.message) }

/-- The `generateAnimation` handler (lines 74–143): the missing-image guard,
the initial `setIsGenerating(true); setError(null); setLoadingStep(...)`,
the `try` body, the `catch` handler, and the `finally` block
(`setIsGenerating(false); setLoadingStep('')`).  Returns the resulting state
and the event trace, or `none` when the poll loop never terminates (in which
case neither `catch` nor `finally` ever runs). -/
def generateAnimation (env : Env) (fuel : Nat) (s : SessionState) :
    Option (SessionState × List Event) :=
  match s.selectedImage with
  | none => some (s, [])
  | some img =>
    let s1 : SessionState :=
      { s with isGenerating := true, error := none, loadingStep := initializingMsg }
    let req := buildRequest img s1.prompt s1.aspectRatio
    match runTry env fuel req with
    | none => none
    | some (outcome, tr2) =>
      let s2 : SessionState :=
        match outcome with
        | Except.ok blobUrl => { s1 with generatedVideoUrl := some blobUrl }
        | Except.error e => applyCatch s1 e
      some ({ s2 with isGenerating := false, loadingStep := "" },
        Event.clearError :: Event.displayStep initializingMsg ::
          (tr2 ++ [Event.displayStep ""]))

/-- The `checkApiKey` handler (lines 48–55): on success store the answer in
`hasApiKey`; on failure only log (the returned flag records that the error
was logged) and leave the state untouched. -/
def checkApiKey (res : Except GenError Bool) (s : SessionState) :
    SessionState × Bool :=
  match res with
  | Except.ok b => ({ s with hasApiKey := b }, false)
  | Except.error _ => (s, true)

/-- The `handleSelectKey` handler (lines 57–61): optimistically marks the
key as present. -/
def handleSelectKey (s : SessionState) : SessionState :=
  { s with hasApiKey := true }

/-- The `disabled` condition of the Generate button (line 272):
`!selectedImage || isGenerating`. -/
def generateDisabled (s : SessionState) : Bool :=
  s.selectedImage.isNone || s.isGenerating

/-- Line 145: the gate screen is rendered exactly when `hasApiKey` is
false. -/
def rendersGate (s : SessionState) : Bool :=
  !s.hasApiKey

/-- The session states reachable through the UI: the initial state, the
result of the mount-time key check, key selection from the gate screen, and
— on the main screen — image upload, prompt editing (free text or preset),
aspect-ratio selection among the two offered values, and a terminating run
of `generateAnimation` started while the Generate button is enabled. -/
inductive Reachable : SessionState → Prop where
  | init : Reachable initState
  | checked (s : SessionState) (r : Except GenError Bool) :
      Reachable s → Reachable (checkApiKey r s).1
  | selectKey (s : SessionState) :
      Reachable s → s.hasApiKey = false → Reachable (handleSelectKey s)
  | upload (s : SessionState) (img : String) :
      Reachable s → s.hasApiKey = true →
      Reachable { s with selectedImage := some img }
  | editPrompt (s : SessionState) (p : String) :
      Reachable s → s.hasApiKey = true → Reachable { s with prompt := p }
  | chooseAspect (s : SessionState) (ar : String) :
      Reachable s → s.hasApiKey = true → ar = "9:16" ∨ ar = "16:9" →
      Reachable { s with aspectRatio := ar }
  | generate (s s' : SessionState) (env : Env) (fuel : Nat) (tr : List Event) :
      Reachable s → s.hasApiKey = true → generateDisabled s = false →
      generateAnimation env fuel s = some (s', tr) → Reachable s'

/-! ## Scenario environments and helper definitions -/

/-- An operation handle still reporting not-done. -/
def opNotDone : Operation := { done := false, response := none }

/-- A finished operation carrying exactly one generated video at `u`. -/
def opDoneWith (u : String) : Operation :=
  { done := true
  , response := some { generatedVideos := some [ { video := some { uri := some u } } ] } }

/-- Status reported by the `i`-th check of the scenario in which the handle
reports not-done exactly `n` times and then done with result uri `u`
(check 0 is the submit result, check `i + 1` the `i`-th poll result). -/
def statusAt (n : Nat) (u : String) (i : Nat) : Operation :=
  if i < n then opNotDone else opDoneWith u

/-- Environment for that scenario: every call succeeds, polling follows
`statusAt`, and fetching returns `fetchFn` of the requested URL. -/
def envC1 (n : Nat) (u key : String) (fetchFn : String → String) : Env :=
  { apiKey := key
  , submitRes := fun _ => Except.ok (statusAt n u 0)
  , pollRes := fun j => Except.ok (statusAt n u (j + 1))
  , fetchRes := fun url => Except.ok (fetchFn url) }

/-- The events of `k` consecutive poll iterations starting at message index
`i`: each iteration displays the message of its index modulo five, waits
10 seconds, and re-fetches the operation status. -/
def c1PollEvents : Nat → Nat → List Event
  | 0, _ => []
  | k + 1, i =>
    Event.displayStep (loadingMessages.getD (i % 5) "") :: Event.wait 10000 ::
      Event.pollCall :: c1PollEvents k (i + 1)

/-- The status phrases displayed in a trace. -/
def displayedPhrases (tr : List Event) : List String :=
  tr.filterMap (fun e =>
    match e with
    | Event.displayStep m => some m
    | _ => none)

/-- Is this event the submission call? -/
def isSubmitEvent (e : Event) : Bool :=
  match e with
  | Event.submitCall _ => true
  | _ => false

/-- Number of submission calls recorded in a trace. -/
def countSubmits (tr : List Event) : Nat :=
  (tr.filter isSubmitEvent).length

/-- The halting condition of the poll loop entered at poll index `i` with
current operation `op`: the current handle is already done, or some later
check errors or reports done. -/
def pollHaltCond (env : Env) (i : Nat) (op : Operation) : Prop :=
  op.done = true ∨
    ∃ k, (∃ e, env.pollRes (i + k) = Except.error e) ∨
      (∃ op2, env.pollRes (i + k) = Except.ok op2 ∧ op2.done = true)

/-- The state after the `catch`/`finally` sequel of a run whose `try` body
ended in `outcome`: on success the blob url is stored and the error stays
cleared; on a thrown error the `catch` branch applies; `finally` always
resets `isGenerating` and `loadingStep`.  Proved equal to the sequel of
`generateAnimation` in `generateAnimation_run`. -/
def finishRun (s : SessionState) (outcome : Except GenError String) : SessionState :=
  match outcome with
  | Except.ok b => { s with isGenerating := false, loadingStep := "", error := none, generatedVideoUrl := some b }
  | Except.error e =>
    if msgIndicatesNotFound e.message then
      { s with isGenerating := false, loadingStep := "", hasApiKey := false, error := some expiredKeyMsg }
    else
      { s with isGenerating := false, loadingStep := "", error := some (displayedMessage e.message) }

/-- A service that reports not-done forever and never errors. -/
def envStuck : Env :=
  { apiKey := ""
  , submitRes := fun _ => Except.ok opNotDone
  , pollRes := fun _ => Except.ok opNotDone
  , fetchRes := fun _ => Except.ok "" }

/-- The demonstration image, a small data url. -/
def imgW : String := "data:image/png;base64,AAAA"

/-- A ready-to-generate session: key selected, image uploaded. -/
def sImgW : SessionState :=
  { initState with hasApiKey := true, selectedImage := some imgW }

/-- The request built from the demonstration session. -/
def reqW : GenRequest := buildRequest imgW sImgW.prompt sImgW.aspectRatio

/-- A service whose submission succeeds at once with one video at
`http://u` and whose fetch yields the blob url `blob:video1`. -/
def envOkW : Env :=
  { apiKey := "K"
  , submitRes := fun _ => Except.ok (opDoneWith "http://u")
  , pollRes := fun _ => Except.ok opNotDone
  , fetchRes := fun _ => Except.ok "blob:video1" }

/-- A service whose submission throws a plain error with message `boom`. -/
def envBoom : Env :=
  { apiKey := "K"
  , submitRes := fun _ => Except.error { message := some "boom" }
  , pollRes := fun _ => Except.ok opNotDone
  , fetchRes := fun _ => Except.ok "" }

/-- A service whose submission throws an error carrying the not-found
signature. -/
def envNF : Env :=
  { apiKey := "K"
  , submitRes := fun _ => Except.error { message := some "Requested entity was not found." }
  , pollRes := fun _ => Except.ok opNotDone
  , fetchRes := fun _ => Except.ok "" }

/-- A finished operation whose response carries zero generated videos. -/
def opDoneNoRes : Operation :=
  { done := true, response := some { generatedVideos := some [] } }

/-- A service whose submission completes at once with zero results. -/
def envNoRes : Env :=
  { apiKey := "K"
  , submitRes := fun _ => Except.ok opDoneNoRes
  , pollRes := fun _ => Except.ok opNotDone
  , fetchRes := fun _ => Except.ok "" }

/-- The demonstration session with an asset from an earlier successful
run still displayed. -/
def sVidW : SessionState := { sImgW with generatedVideoUrl := some "blob:old" }

/-- The state reached by a successful run from `sImgW` against `envOkW`. -/
def sOkW : SessionState := { sImgW with isGenerating := false, loadingStep := "", error := none, generatedVideoUrl := some "blob:video1" }

/-- The state reached by a failing run from `sImgW` against `envBoom`. -/
def sFailW : SessionState := { sImgW with isGenerating := false, loadingStep := "", error := some "boom" }

/-- A state holding both a result asset and an error message: reached by a
successful run followed by a failing one. -/
def sBothSet : SessionState := { sImgW with isGenerating := false, loadingStep := "", generatedVideoUrl := some "blob:video1", error := some "boom" }

/-- Trace of the successful run from `sImgW` against `envOkW`. -/
def trOkW : List Event :=
  [ Event.clearError, Event.displayStep initializingMsg, Event.displayStep uploadingMsg
  , Event.submitCall reqW, Event.displayStep downloadingMsg
  , Event.fetchCall "http://u&key=K", Event.displayStep "" ]

/-- Trace of a run whose submission throws. -/
def trFailW : List Event :=
  [ Event.clearError, Event.displayStep initializingMsg, Event.displayStep uploadingMsg
  , Event.submitCall reqW, Event.displayStep "" ]

/-- The state after the failing run from `sVidW` (prior asset kept). -/
def sVidFail : SessionState := { sVidW with isGenerating := false, loadingStep := "", error := some "boom" }

/-- The state after a failing run started with an image but no key flag. -/
def sC7fail : SessionState := { initState with selectedImage := some imgW, error := some "boom" }

/-- Trace of the failing run started from the initial state with only the
image `imgW` uploaded. -/
def trC7fail : List Event :=
  [ Event.clearError, Event.displayStep initializingMsg, Event.displayStep uploadingMsg
  , Event.submitCall (buildRequest imgW "" "9:16"), Event.displayStep "" ]

/-! ## Helper lemmas about the poll loop -/

lemma pollLoop_of_done (env : Env) (fuel i : Nat) (op : Operation)
    (h : op.done = true) : pollLoop env fuel i op = some (Except.ok op, []) := by
  cases fuel <;> simp [pollLoop, h]

lemma pollLoop_zero (env : Env) (i : Nat) (op : Operation)
    (hd : op.done = false) : pollLoop env 0 i op = none := by
  simp [pollLoop, hd]

lemma pollLoop_succ (env : Env) (fuel i : Nat) (op : Operation)
    (hd : op.done = false) :
    pollLoop env (fuel + 1) i op =
      match env.pollRes i with
      | Except.error e =>
        some (Except.error e,
          [Event.displayStep (pollMsg i), Event.wait 10000, Event.pollCall])
      | Except.ok op2 =>
        match pollLoop env fuel (i + 1) op2 with
        | none => none
        | some (r, tr) =>
          some (r,
            Event.displayStep (pollMsg i) :: Event.wait 10000 :: Event.pollCall :: tr) := by
  rw [pollLoop, hd]
  simp

lemma pollLoop_ok_done (env : Env) :
    ∀ (fuel i : Nat) (op opF : Operation) (tr : List Event),
      pollLoop env fuel i op = some (Except.ok opF, tr) → opF.done = true := by
  intro fuel
  induction fuel with
  | zero =>
    intro i op opF tr h
    by_cases hd : op.done
    · rw [pollLoop_of_done env 0 i op hd] at h
      simp at h
      rw [← h.1]
      exact hd
    · rw [pollLoop_zero env i op (by simpa using hd)] at h
      exact absurd h (by simp)
  | succ fuel ih =>
    intro i op opF tr h
    by_cases hd : op.done
    · rw [pollLoop_of_done env (fuel + 1) i op hd] at h
      simp at h
      rw [← h.1]
      exact hd
    · rw [pollLoop_succ env fuel i op (by simpa using hd)] at h
      cases hp : env.pollRes i with
      | error e => rw [hp] at h; simp at h
      | ok op2 =>
        rw [hp] at h
        simp only at h
        cases hrec : pollLoop env fuel (i + 1) op2 with
        | none => rw [hrec] at h; simp at h
        | some out =>
          obtain ⟨r, tr'⟩ := out
          rw [hrec] at h
          simp only at h
          have hr : r = Except.ok opF := congrArg Prod.fst (Option.some.inj h)
          exact ih (i + 1) op2 opF tr' (hr ▸ hrec)

lemma halt_cond_of_pollLoop (env : Env) :
    ∀ (fuel i : Nat) (op : Operation) (out : Except GenError Operation × List Event),
      pollLoop env fuel i op = some out → pollHaltCond env i op := by
  intro fuel
  induction fuel with
  | zero =>
    intro i op out h
    by_cases hd : op.done
    · exact Or.inl hd
    · rw [pollLoop_zero env i op (by simpa using hd)] at h
      exact absurd h (by simp)
  | succ fuel ih =>
    intro i op out h
    by_cases hd : op.done
    · exact Or.inl hd
    · rw [pollLoop_succ env fuel i op (by simpa using hd)] at h
      cases hp : env.pollRes i with
      | error e => exact Or.inr ⟨0, Or.inl ⟨e, by simpa using hp⟩⟩
      | ok op2 =>
        rw [hp] at h
        simp only at h
        cases hrec : pollLoop env fuel (i + 1) op2 with
        | none => rw [hrec] at h; simp at h
        | some out2 =>
          rcases ih (i + 1) op2 out2 hrec with h2 | ⟨k, hk⟩
          · exact Or.inr ⟨0, Or.inr ⟨op2, by simpa using hp, h2⟩⟩
          · refine Or.inr ⟨k + 1, ?_⟩
            have harith : i + (k + 1) = i + 1 + k := by omega
            rw [harith]
            exact hk

lemma pollLoop_halts_of_cond (env : Env) :
    ∀ (k i : Nat) (op : Operation),
      ((∃ e, env.pollRes (i + k) = Except.error e) ∨
        (∃ op2, env.pollRes (i + k) = Except.ok op2 ∧ op2.done = true)) →
      ∃ fuel out, pollLoop env fuel i op = some out := by
  intro k
  induction k with
  | zero =>
    intro i op hcond
    by_cases hd : op.done
    · exact ⟨0, _, pollLoop_of_done env 0 i op hd⟩
    · have hd' : op.done = false := by simpa using hd
      rcases hcond with ⟨e, he⟩ | ⟨op2, hok, hdone⟩
      · rw [Nat.add_zero] at he
        refine ⟨1, (Except.error e,
          [Event.displayStep (pollMsg i), Event.wait 10000, Event.pollCall]), ?_⟩
        rw [pollLoop_succ env 0 i op hd', he]
      · rw [Nat.add_zero] at hok
        refine ⟨1, (Except.ok op2,
          Event.displayStep (pollMsg i) :: Event.wait 10000 :: Event.pollCall :: []), ?_⟩
        rw [pollLoop_succ env 0 i op hd', hok]
        simp only [pollLoop_of_done env 0 (i + 1) op2 hdone]
  | succ k ih =>
    intro i op hcond
    by_cases hd : op.done
    · exact ⟨0, _, pollLoop_of_done env 0 i op hd⟩
    · have hd' : op.done = false := by simpa using hd
      cases hp : env.pollRes i with
      | error e =>
        refine ⟨1, (Except.error e,
          [Event.displayStep (pollMsg i), Event.wait 10000, Event.pollCall]), ?_⟩
        rw [pollLoop_succ env 0 i op hd', hp]
      | ok op2 =>
        have harith : i + (k + 1) = i + 1 + k := by omega
        rw [harith] at hcond
        obtain ⟨fuel2, out2, hout2⟩ := ih (i + 1) op2 hcond
        obtain ⟨r2, tr2⟩ := out2
        refine ⟨fuel2 + 1, (r2,
          Event.displayStep (pollMsg i) :: Event.wait 10000 :: Event.pollCall :: tr2), ?_⟩
        rw [pollLoop_succ env fuel2 i op hd', hp]
        simp only [hout2]

lemma pollLoop_stuck_aux (env : Env) (f : Nat → Operation)
    (hok : ∀ j, env.pollRes j = Except.ok (f j))
    (hnd : ∀ j, (f j).done = false) :
    ∀ (fuel i : Nat) (op : Operation), op.done = false →
      pollLoop env fuel i op = none := by
  intro fuel
  induction fuel with
  | zero =>
    intro i op hd
    exact pollLoop_zero env i op hd
  | succ fuel ih =>
    intro i op hd
    rw [pollLoop_succ env fuel i op hd, hok i]
    simp only [ih (i + 1) (f i) (hnd i)]

lemma envC1_submit (n : Nat) (u key : String) (f : String → String)
    (req : GenRequest) :
    (envC1 n u key f).submitRes req = Except.ok (statusAt n u 0) := rfl

lemma envC1_fetch (n : Nat) (u key : String) (f : String → String)
    (url : String) : (envC1 n u key f).fetchRes url = Except.ok (f url) := rfl

lemma envC1_key (n : Nat) (u key : String) (f : String → String) :
    (envC1 n u key f).apiKey = key := rfl

lemma pollLoop_envC1 (n : Nat) (u key : String) (f : String → String) :
    ∀ (k i fuel : Nat), i + k = n → k ≤ fuel →
      pollLoop (envC1 n u key f) fuel i (statusAt n u i) =
        some (Except.ok (opDoneWith u), c1PollEvents k i) := by
  intro k
  induction k with
  | zero =>
    intro i fuel hi hf
    have hst : statusAt n u i = opDoneWith u := by
      unfold statusAt
      rw [if_neg]
      omega
    rw [hst, c1PollEvents]
    exact pollLoop_of_done _ _ _ _ rfl
  | succ k ih =>
    intro i fuel hi hf
    have hlt : i < n := by omega
    obtain ⟨fuel', rfl⟩ : ∃ m, fuel = m + 1 := ⟨fuel - 1, by omega⟩
    have hst : statusAt n u i = opNotDone := by
      unfold statusAt
      rw [if_pos hlt]
    rw [hst, pollLoop_succ _ _ _ _ rfl]
    have hpoll : (envC1 n u key f).pollRes i = Except.ok (statusAt n u (i + 1)) := rfl
    rw [hpoll]
    dsimp only
    rw [ih (i + 1) fuel' (by omega) (by omega)]
    rfl

lemma c1PollEvents_phrases : ∀ (k i : Nat),
    displayedPhrases (c1PollEvents k i) =
      (List.range' i k).map (fun j => loadingMessages.getD (j % 5) "") := by
  intro k
  induction k with
  | zero => intro i; rfl
  | succ k ih =>
    intro i
    rw [c1PollEvents, List.range'_succ]
    show loadingMessages.getD (i % 5) "" :: displayedPhrases (c1PollEvents k (i + 1)) = _
    rw [ih (i + 1), List.map_cons]

/-- **C1**: in every run whose operation handle reports not-done exactly `n`
times and then done with a result uri, the orchestrator displays exactly the
`n` status phrases of index `0 ≤ j < n` modulo five from the fixed
five-message list, waits the fixed 10-second delay before each re-fetch of
the operation status, then transitions to downloading, and the final
displayed asset is the blob fetched from that uri. -/
theorem generateAnimation_poll_rotation
    (n : Nat) (u key : String) (fetchFn : String → String)
    (s : SessionState) (img : String) (fuel : Nat)
    (himg : s.selectedImage = some img) (hu : u ≠ "") (hfuel : n ≤ fuel) :
    generateAnimation (envC1 n u key fetchFn) fuel s =
      some ({ s with isGenerating := false, loadingStep := "", error := none, generatedVideoUrl := some (fetchFn (u ++ "&key=" ++ key)) },
        Event.clearError :: Event.displayStep initializingMsg ::
          Event.displayStep uploadingMsg ::
          Event.submitCall (buildRequest img s.prompt s.aspectRatio) ::
          (c1PollEvents n 0 ++
            [Event.displayStep downloadingMsg,
             Event.fetchCall (u ++ "&key=" ++ key), Event.displayStep ""]))
    ∧ displayedPhrases (c1PollEvents n 0) =
        (List.range n).map (fun j => loadingMessages.getD (j % 5) "") := by
  constructor
  · have hloop := pollLoop_envC1 n u key fetchFn n 0 fuel (Nat.zero_add n) hfuel
    have huri : uriIfTruthy (opDoneWith u).firstUri = some u := by
      simp [opDoneWith, Operation.firstUri, uriIfTruthy, hu]
    unfold generateAnimation
    rw [himg]
    dsimp only
    unfold runTry
    rw [envC1_submit]
    dsimp only
    rw [hloop]
    dsimp only
    rw [huri]
    dsimp only
    rw [envC1_fetch]
    dsimp only
    simp [List.append_assoc, envC1_key]
  · rw [c1PollEvents_phrases n 0, List.range_eq_range']

/-- Witness for C1 at `n = 3`: the hypotheses hold at the concrete input and
the theorem yields the concrete run. -/
theorem generateAnimation_poll_rotation_witness :
    (sImgW.selectedImage = some imgW ∧ "http://v" ≠ "" ∧ 3 ≤ 3)
    ∧ (generateAnimation (envC1 3 "http://v" "K" (fun x => x)) 3 sImgW =
      some ({ sImgW with isGenerating := false, loadingStep := "", error := none, generatedVideoUrl := some ((fun x => x) ("http://v" ++ "&key=" ++ "K")) },
        Event.clearError :: Event.displayStep initializingMsg ::
          Event.displayStep uploadingMsg ::
          Event.submitCall (buildRequest imgW sImgW.prompt sImgW.aspectRatio) ::
          (c1PollEvents 3 0 ++
            [Event.displayStep downloadingMsg,
             Event.fetchCall ("http://v" ++ "&key=" ++ "K"), Event.displayStep ""]))
      ∧ displayedPhrases (c1PollEvents 3 0) =
          (List.range 3).map (fun j => loadingMessages.getD (j % 5) "")) :=
  ⟨⟨rfl, by decide, by decide⟩,
    generateAnimation_poll_rotation 3 "http://v" "K" (fun x => x)
      sImgW imgW 3 rfl (by decide) (by decide)⟩

/-- **C2**: the poll loop has no attempt cap and no timeout: it terminates
(for some fuel) exactly when the current handle is already done or some
later status check errors or reports done; and against a service that
always answers not-done and never errors, it returns `none` (still running)
for every amount of fuel. -/
theorem pollLoop_unbounded_no_timeout :
    (∀ (env : Env) (i : Nat) (op : Operation),
      (∃ fuel out, pollLoop env fuel i op = some out) ↔ pollHaltCond env i op)
    ∧ ∀ (env : Env) (f : Nat → Operation),
        (∀ j, env.pollRes j = Except.ok (f j)) →
        (∀ j, (f j).done = false) →
        ∀ (fuel i : Nat) (op : Operation), op.done = false →
          pollLoop env fuel i op = none := by
  constructor
  · intro env i op
    constructor
    · rintro ⟨fuel, out, h⟩
      exact halt_cond_of_pollLoop env fuel i op out h
    · rintro (hd | ⟨k, hk⟩)
      · exact ⟨0, _, pollLoop_of_done env 0 i op hd⟩
      · exact pollLoop_halts_of_cond env k i op hk
  · intro env f hok hnd fuel i op hd
    exact pollLoop_stuck_aux env f hok hnd fuel i op hd

/-- Witness for C2: against the always-not-done service the loop is still
running after 5 units of fuel. -/
theorem pollLoop_unbounded_no_timeout_witness :
    pollLoop envStuck 5 0 opNotDone = none :=
  pollLoop_unbounded_no_timeout.2 envStuck (fun _ => opNotDone)
    (fun _ => rfl) (fun _ => rfl) 5 0 opNotDone rfl

/-! ## Decomposition of a terminating run -/

lemma generateAnimation_run (env : Env) (fuel : Nat) (s : SessionState)
    (img : String) (himg : s.selectedImage = some img)
    (outcome : Except GenError String) (tr2 : List Event)
    (hrun : runTry env fuel (buildRequest img s.prompt s.aspectRatio) = some (outcome, tr2)) :
    generateAnimation env fuel s =
      some (finishRun s outcome,
        Event.clearError :: Event.displayStep initializingMsg ::
          (tr2 ++ [Event.displayStep ""])) := by
  obtain ⟨hk, si, p, ar, ig, ls, gv, er⟩ := s
  obtain rfl : si = some img := himg
  dsimp only at hrun
  unfold generateAnimation
  dsimp only
  rw [hrun]
  dsimp only
  cases outcome with
  | ok b => rfl
  | error e =>
    dsimp only
    unfold finishRun applyCatch
    dsimp only
    by_cases hm : msgIndicatesNotFound e.message
    · simp [hm]
    · simp [hm]

lemma generateAnimation_stuck (env : Env) (fuel : Nat) (s : SessionState)
    (img : String) (himg : s.selectedImage = some img)
    (hrun : runTry env fuel (buildRequest img s.prompt s.aspectRatio) = none) :
    generateAnimation env fuel s = none := by
  obtain ⟨hk, si, p, ar, ig, ls, gv, er⟩ := s
  obtain rfl : si = some img := himg
  dsimp only at hrun
  unfold generateAnimation
  dsimp only
  rw [hrun]

lemma generateAnimation_inv (env : Env) (fuel : Nat) (s : SessionState)
    (img : String) (s' : SessionState) (tr : List Event)
    (himg : s.selectedImage = some img)
    (hrun : generateAnimation env fuel s = some (s', tr)) :
    ∃ outcome tr2,
      runTry env fuel (buildRequest img s.prompt s.aspectRatio) = some (outcome, tr2)
      ∧ s' = finishRun s outcome
      ∧ tr = Event.clearError :: Event.displayStep initializingMsg ::
          (tr2 ++ [Event.displayStep ""]) := by
  cases hT : runTry env fuel (buildRequest img s.prompt s.aspectRatio) with
  | none =>
    rw [generateAnimation_stuck env fuel s img himg hT] at hrun
    exact absurd hrun (by simp)
  | some out =>
    obtain ⟨outcome, tr2⟩ := out
    rw [generateAnimation_run env fuel s img himg outcome tr2 hT] at hrun
    have h := Option.some.inj hrun
    exact ⟨outcome, tr2, rfl, (congrArg Prod.fst h).symm, (congrArg Prod.snd h).symm⟩

lemma runTry_noResult (env : Env) (fuel : Nat) (req : GenRequest)
    (op0 opF : Operation) (trP : List Event)
    (hsub : env.submitRes req = Except.ok op0)
    (hloop : pollLoop env fuel 0 op0 = some (Except.ok opF, trP))
    (hnores : uriIfTruthy opF.firstUri = none) :
    runTry env fuel req =
      some (Except.error { message := some noVideoMsg },
        Event.displayStep uploadingMsg :: Event.submitCall req :: trP) := by
  unfold runTry
  rw [hsub]
  dsimp only
  rw [hloop]
  dsimp only
  rw [hnores]

lemma noVideo_not_notFound :
    msgIndicatesNotFound (some noVideoMsg) = false := by decide

lemma displayedMessage_noVideo : displayedMessage (some noVideoMsg) = noVideoMsg := by
  decide

/-- **C3**: for every failure raised during submission, polling, or download
(any environment, any error): when the message contains the not-found
signature, the credential flag is reset and the re-selection message shown;
every other failure shows the raw message (or the generic fallback when the
message is absent or empty) and leaves the credential flag unchanged. -/
theorem generateAnimation_error_handling (env : Env) (fuel : Nat)
    (s : SessionState) (img : String) (e : GenError) (trT : List Event)
    (himg : s.selectedImage = some img)
    (hrun : runTry env fuel (buildRequest img s.prompt s.aspectRatio) = some (Except.error e, trT)) :
    (msgIndicatesNotFound e.message = true →
      generateAnimation env fuel s =
        some ({ s with isGenerating := false, loadingStep := "", hasApiKey := false, error := some expiredKeyMsg },
          Event.clearError :: Event.displayStep initializingMsg ::
            (trT ++ [Event.displayStep ""])))
    ∧ (msgIndicatesNotFound e.message = false →
      generateAnimation env fuel s =
        some ({ s with isGenerating := false, loadingStep := "", error := some (displayedMessage e.message) },
          Event.clearError :: Event.displayStep initializingMsg ::
            (trT ++ [Event.displayStep ""]))) := by
  have h := generateAnimation_run env fuel s img himg (Except.error e) trT hrun
  constructor
  · intro hm
    rw [h]
    simp [finishRun, hm]
  · intro hm
    rw [h]
    simp [finishRun, hm]

/-- Witness for C3: a not-found failure at submission resets the flag and
shows the re-selection message; a plain `boom` failure surfaces `boom`
and leaves the flag `true`. -/
theorem generateAnimation_error_handling_witness :
    (sImgW.selectedImage = some imgW
      ∧ runTry envNF 1 (buildRequest imgW sImgW.prompt sImgW.aspectRatio) =
          some (Except.error { message := some "Requested entity was not found." },
            [Event.displayStep uploadingMsg, Event.submitCall (buildRequest imgW sImgW.prompt sImgW.aspectRatio)])
      ∧ msgIndicatesNotFound (some "Requested entity was not found.") = true
      ∧ msgIndicatesNotFound (some "boom") = false)
    ∧ generateAnimation envNF 1 sImgW =
        some ({ sImgW with isGenerating := false, loadingStep := "", hasApiKey := false, error := some expiredKeyMsg },
          Event.clearError :: Event.displayStep initializingMsg ::
            ([Event.displayStep uploadingMsg, Event.submitCall (buildRequest imgW sImgW.prompt sImgW.aspectRatio)] ++ [Event.displayStep ""]))
    ∧ generateAnimation envBoom 1 sImgW =
        some ({ sImgW with isGenerating := false, loadingStep := "", error := some (displayedMessage (some "boom")) },
          Event.clearError :: Event.displayStep initializingMsg ::
            ([Event.displayStep uploadingMsg, Event.submitCall (buildRequest imgW sImgW.prompt sImgW.aspectRatio)] ++ [Event.displayStep ""])) :=
  ⟨⟨rfl, by decide, by decide, by decide⟩,
    (generateAnimation_error_handling envNF 1 sImgW imgW
      { message := some "Requested entity was not found." } _ rfl (by decide)).1 (by decide),
    (generateAnimation_error_handling envBoom 1 sImgW imgW
      { message := some "boom" } _ rfl (by decide)).2 (by decide)⟩

/-- **C4**: when the operation completes (done) but exposes no generated
result with a retrievable location, the job fails with the
"no video generated" message; the credential flag and the previous result
asset are left unchanged (no `hasApiKey` or `generatedVideoUrl` update in
the resulting state). -/
theorem generateAnimation_no_video (env : Env) (fuel : Nat)
    (s : SessionState) (img : String) (op0 opF : Operation) (trP : List Event)
    (himg : s.selectedImage = some img)
    (hsub : env.submitRes (buildRequest img s.prompt s.aspectRatio) = Except.ok op0)
    (hloop : pollLoop env fuel 0 op0 = some (Except.ok opF, trP))
    (hnores : uriIfTruthy opF.firstUri = none) :
    opF.done = true
    ∧ generateAnimation env fuel s =
        some ({ s with isGenerating := false, loadingStep := "", error := some noVideoMsg },
          Event.clearError :: Event.displayStep initializingMsg ::
            ((Event.displayStep uploadingMsg ::
              Event.submitCall (buildRequest img s.prompt s.aspectRatio) :: trP)
              ++ [Event.displayStep ""])) := by
  refine ⟨pollLoop_ok_done env fuel 0 op0 opF trP hloop, ?_⟩
  have hT := runTry_noResult env fuel (buildRequest img s.prompt s.aspectRatio)
    op0 opF trP hsub hloop hnores
  have h := generateAnimation_run env fuel s img himg
    (Except.error { message := some noVideoMsg }) _ hT
  rw [h]
  simp [finishRun, noVideo_not_notFound, displayedMessage_noVideo]

/-- Witness for C4: a submission that completes at once with zero generated
videos fails with the "no video generated" message and leaves the
credential flag `true`. -/
theorem generateAnimation_no_video_witness :
    (sImgW.selectedImage = some imgW
      ∧ envNoRes.submitRes (buildRequest imgW sImgW.prompt sImgW.aspectRatio) = Except.ok opDoneNoRes
      ∧ pollLoop envNoRes 1 0 opDoneNoRes = some (Except.ok opDoneNoRes, [])
      ∧ uriIfTruthy opDoneNoRes.firstUri = none)
    ∧ opDoneNoRes.done = true
    ∧ generateAnimation envNoRes 1 sImgW =
        some ({ sImgW with isGenerating := false, loadingStep := "", error := some noVideoMsg },
          Event.clearError :: Event.displayStep initializingMsg ::
            ((Event.displayStep uploadingMsg ::
              Event.submitCall (buildRequest imgW sImgW.prompt sImgW.aspectRatio) :: [])
              ++ [Event.displayStep ""])) :=
  ⟨⟨rfl, rfl, by decide, rfl⟩,
    generateAnimation_no_video envNoRes 1 sImgW imgW opDoneNoRes opDoneNoRes []
      rfl rfl (by decide) rfl⟩

lemma pollLoop_no_submit (env : Env) :
    ∀ (fuel i : Nat) (op : Operation) (r : Except GenError Operation) (tr : List Event),
      pollLoop env fuel i op = some (r, tr) → countSubmits tr = 0 := by
  intro fuel
  induction fuel with
  | zero =>
    intro i op r tr h
    by_cases hd : op.done
    · rw [pollLoop_of_done env 0 i op hd] at h
      obtain ⟨-, htr⟩ := Prod.mk.inj (Option.some.inj h)
      rw [← htr]
      rfl
    · rw [pollLoop_zero env i op (by simpa using hd)] at h
      exact absurd h (by simp)
  | succ fuel ih =>
    intro i op r tr h
    by_cases hd : op.done
    · rw [pollLoop_of_done env (fuel + 1) i op hd] at h
      obtain ⟨-, htr⟩ := Prod.mk.inj (Option.some.inj h)
      rw [← htr]
      rfl
    · rw [pollLoop_succ env fuel i op (by simpa using hd)] at h
      cases hp : env.pollRes i with
      | error e =>
        rw [hp] at h
        dsimp only at h
        obtain ⟨-, htr⟩ := Prod.mk.inj (Option.some.inj h)
        rw [← htr]
        rfl
      | ok op2 =>
        rw [hp] at h
        dsimp only at h
        cases hrec : pollLoop env fuel (i + 1) op2 with
        | none => rw [hrec] at h; exact absurd h (by simp)
        | some out =>
          obtain ⟨r2, tr2⟩ := out
          rw [hrec] at h
          dsimp only at h
          obtain ⟨-, htr⟩ := Prod.mk.inj (Option.some.inj h)
          rw [← htr]
          have h0 := ih (i + 1) op2 r2 tr2 hrec
          simp only [countSubmits, List.filter, isSubmitEvent] at h0 ⊢
          exact h0

lemma runTry_submit_shape (env : Env) (fuel : Nat) (req : GenRequest)
    (outcome : Except GenError String) (tr : List Event)
    (h : runTry env fuel req = some (outcome, tr)) :
    ∃ trR, tr = Event.displayStep uploadingMsg :: Event.submitCall req :: trR
      ∧ countSubmits trR = 0 := by
  unfold runTry at h
  cases hsub : env.submitRes req with
  | error e =>
    rw [hsub] at h
    dsimp only at h
    obtain ⟨-, htr⟩ := Prod.mk.inj (Option.some.inj h)
    exact ⟨[], htr.symm, rfl⟩
  | ok op0 =>
    rw [hsub] at h
    dsimp only at h
    cases hloop : pollLoop env fuel 0 op0 with
    | none => rw [hloop] at h; exact absurd h (by simp)
    | some out =>
      obtain ⟨r, trP⟩ := out
      rw [hloop] at h
      have hP0 : countSubmits trP = 0 := pollLoop_no_submit env fuel 0 op0 r trP hloop
      cases r with
      | error e =>
        dsimp only at h
        obtain ⟨-, htr⟩ := Prod.mk.inj (Option.some.inj h)
        exact ⟨trP, htr.symm, hP0⟩
      | ok opF =>
        dsimp only at h
        cases huri : uriIfTruthy opF.firstUri with
        | none =>
          rw [huri] at h
          dsimp only at h
          obtain ⟨-, htr⟩ := Prod.mk.inj (Option.some.inj h)
          exact ⟨trP, htr.symm, hP0⟩
        | some uri =>
          rw [huri] at h
          dsimp only at h
          have hshape : countSubmits (trP ++
              [Event.displayStep downloadingMsg,
               Event.fetchCall (uri ++ "&key=" ++ env.apiKey)]) = 0 := by
            simp only [countSubmits, List.filter_append] at hP0 ⊢
            simp [hP0, isSubmitEvent]
          cases hf : env.fetchRes (uri ++ "&key=" ++ env.apiKey) with
          | error e =>
            rw [hf] at h
            dsimp only at h
            obtain ⟨-, htr⟩ := Prod.mk.inj (Option.some.inj h)
            exact ⟨_, htr.symm, hshape⟩
          | ok b =>
            rw [hf] at h
            dsimp only at h
            obtain ⟨-, htr⟩ := Prod.mk.inj (Option.some.inj h)
            exact ⟨_, htr.symm, hshape⟩

lemma runTry_one_submit (env : Env) (fuel : Nat) (req : GenRequest)
    (outcome : Except GenError String) (tr : List Event)
    (h : runTry env fuel req = some (outcome, tr)) : countSubmits tr = 1 := by
  obtain ⟨trR, rfl, h0⟩ := runTry_submit_shape env fuel req outcome tr h
  simp only [countSubmits, List.filter, isSubmitEvent] at h0 ⊢
  simp [h0]

/-- **C5 counterexample**: the state reached by a successful generation
followed by a failing one is reachable through the UI and carries both a
result asset and an error message, refuting the claimed invariant. -/
theorem resultAndError_both_set_cex :
    Reachable sBothSet
    ∧ sBothSet.error.isSome = true
    ∧ sBothSet.generatedVideoUrl.isSome = true := by
  refine ⟨?_, rfl, rfl⟩
  have h0 : Reachable initState := Reachable.init
  have h1 : Reachable (handleSelectKey initState) :=
    Reachable.selectKey initState h0 rfl
  have h2 : Reachable sImgW :=
    Reachable.upload (handleSelectKey initState) imgW h1 rfl
  have h3 : Reachable sOkW :=
    Reachable.generate sImgW sOkW envOkW 1 trOkW h2 rfl rfl (by decide)
  exact Reachable.generate sOkW sBothSet envBoom 1 trFailW h3 rfl rfl (by decide)

/-- **C5 (amended)**: within a single submit run started from a state with
no result asset, the error message and the result asset are never both set:
a successful run stores the asset with the error cleared, and a failing run
stores the error while leaving the (absent) asset absent.  (A failing run
started after an earlier success keeps the old asset while setting the
error, which is what refutes the original claim.) -/
theorem singleRun_result_error_exclusive (env : Env) (fuel : Nat)
    (s : SessionState) (img : String) (s' : SessionState) (tr : List Event)
    (himg : s.selectedImage = some img) (hvid : s.generatedVideoUrl = none)
    (hrun : generateAnimation env fuel s = some (s', tr)) :
    ¬(s'.error.isSome = true ∧ s'.generatedVideoUrl.isSome = true) := by
  rintro ⟨hE, hV⟩
  obtain ⟨outcome, tr2, hT, rfl, -⟩ :=
    generateAnimation_inv env fuel s img s' tr himg hrun
  cases outcome with
  | ok b => simp [finishRun] at hE
  | error e =>
    by_cases hm : msgIndicatesNotFound e.message
    · simp [finishRun, hm, hvid] at hV
    · simp [finishRun, hm, hvid] at hV

/-- Witness for the amended C5: a single failing run from the asset-free
demonstration session does not end with both fields set. -/
theorem singleRun_result_error_exclusive_witness :
    (sImgW.selectedImage = some imgW
      ∧ sImgW.generatedVideoUrl = none
      ∧ generateAnimation envBoom 1 sImgW = some (sFailW, trFailW))
    ∧ ¬(sFailW.error.isSome = true ∧ sFailW.generatedVideoUrl.isSome = true) :=
  ⟨⟨rfl, rfl, by decide⟩,
    singleRun_result_error_exclusive envBoom 1 sImgW imgW sFailW trFailW
      rfl rfl (by decide)⟩

/-- **C6**: the Generate button is disabled exactly when no image is set or
a job is active; invoking the submit handler with no image is a no-op with
no external call; and a terminating run from a state with an image performs
exactly one submission call. -/
theorem generate_guard_single_job :
    (∀ s : SessionState,
      generateDisabled s = true ↔ (s.selectedImage = none ∨ s.isGenerating = true))
    ∧ (∀ (env : Env) (fuel : Nat) (s : SessionState),
        s.selectedImage = none → generateAnimation env fuel s = some (s, []))
    ∧ ∀ (env : Env) (fuel : Nat) (s : SessionState) (img : String)
        (s' : SessionState) (tr : List Event),
        s.selectedImage = some img → generateAnimation env fuel s = some (s', tr) →
        countSubmits tr = 1 := by
  refine ⟨?_, ?_, ?_⟩
  · intro s
    obtain ⟨hk, si, p, ar, ig, ls, gv, er⟩ := s
    cases si <;> cases ig <;> simp [generateDisabled]
  · intro env fuel s h
    unfold generateAnimation
    rw [h]
  · intro env fuel s img s' tr himg hrun
    obtain ⟨outcome, tr2, hT, -, rfl⟩ :=
      generateAnimation_inv env fuel s img s' tr himg hrun
    have h1 := runTry_one_submit env fuel _ outcome tr2 hT
    simp only [countSubmits, List.filter, List.filter_append, isSubmitEvent] at h1 ⊢
    simp at h1 ⊢
    exact h1

/-- Witness for C6: the initial state has the button disabled, a run with no
image is a no-op, and the failing demonstration run submits exactly once. -/
theorem generate_guard_single_job_witness :
    generateDisabled initState = true
    ∧ generateAnimation envStuck 1 initState = some (initState, [])
    ∧ countSubmits trFailW = 1 :=
  ⟨(generate_guard_single_job.1 initState).mpr (Or.inl rfl),
   generate_guard_single_job.2.1 envStuck 1 initState rfl,
   generate_guard_single_job.2.2 envBoom 1 sImgW imgW sFailW trFailW rfl (by decide)⟩

/-- **C7**: with an image uploaded, a blank prompt and the defaults, the
request text is the fixed template followed by the default fallback phrase,
the aspect ratio sent is the default 9:16, and that request is what every
terminating run submits. -/
theorem blank_prompt_default_request (img : String) :
    (buildRequest img "" "9:16").prompt =
      "Animate this character: Natural movement in high quality commercial lighting"
    ∧ (buildRequest img "" "9:16").aspectRatio = "9:16"
    ∧ ∀ (env : Env) (fuel : Nat) (s s' : SessionState) (tr : List Event),
        s.selectedImage = some img → s.prompt = "" → s.aspectRatio = "9:16" →
        generateAnimation env fuel s = some (s', tr) →
        Event.submitCall (buildRequest img "" "9:16") ∈ tr := by
  refine ⟨rfl, rfl, ?_⟩
  intro env fuel s s' tr himg hp har hrun
  obtain ⟨outcome, tr2, hT, -, rfl⟩ :=
    generateAnimation_inv env fuel s img s' tr himg hrun
  obtain ⟨trR, rfl, -⟩ := runTry_submit_shape env fuel _ outcome tr2 hT
  rw [hp, har]
  simp

/-- Witness for C7: the failing demonstration run from the image-only state
contains the submission of the default request. -/
theorem blank_prompt_default_request_witness :
    (generateAnimation envBoom 1 { initState with selectedImage := some imgW } =
      some (sC7fail, trC7fail))
    ∧ Event.submitCall (buildRequest imgW "" "9:16") ∈ trC7fail :=
  ⟨by decide,
    (blank_prompt_default_request imgW).2.2 envBoom 1
      { initState with selectedImage := some imgW } sC7fail trC7fail
      rfl rfl rfl (by decide)⟩

/-- **C8**: a failing initial credential check is logged, leaves the whole
session state unchanged (in particular the credential flag stays absent),
and the gate screen is rendered; the handler returns normally rather than
crashing. -/
theorem checkApiKey_fails_open (e : GenError) (s : SessionState) :
    checkApiKey (Except.error e) s = (s, true)
    ∧ (s.hasApiKey = false → rendersGate (checkApiKey (Except.error e) s).1 = true) := by
  refine ⟨rfl, ?_⟩
  intro h
  simp [checkApiKey, rendersGate, h]

/-- Witness for C8 at the initial state and a concrete network error. -/
theorem checkApiKey_fails_open_witness :
    initState.hasApiKey = false
    ∧ checkApiKey (Except.error { message := some "network failure" }) initState =
        (initState, true)
    ∧ rendersGate
        (checkApiKey (Except.error { message := some "network failure" }) initState).1 = true :=
  ⟨rfl,
    (checkApiKey_fails_open { message := some "network failure" } initState).1,
    (checkApiKey_fails_open { message := some "network failure" } initState).2 rfl⟩

/-- **C9**: every terminating submit run with an image set clears the error
message before any external call (the clear is the first event of the run
trace); a failing run leaves the result asset exactly as it was, and only a
successful run replaces it (with the fetched blob url). -/
theorem generateAnimation_frame_effects (env : Env) (fuel : Nat)
    (s : SessionState) (img : String) (s' : SessionState) (tr : List Event)
    (himg : s.selectedImage = some img)
    (hrun : generateAnimation env fuel s = some (s', tr)) :
    tr.head? = some Event.clearError
    ∧ (∀ (e : GenError) (trT : List Event),
        runTry env fuel (buildRequest img s.prompt s.aspectRatio) =
          some (Except.error e, trT) →
        s'.generatedVideoUrl = s.generatedVideoUrl)
    ∧ ∀ (b : String) (trT : List Event),
        runTry env fuel (buildRequest img s.prompt s.aspectRatio) =
          some (Except.ok b, trT) →
        s'.generatedVideoUrl = some b := by
  obtain ⟨outcome, tr2, hT, rfl, rfl⟩ :=
    generateAnimation_inv env fuel s img s' tr himg hrun
  refine ⟨rfl, ?_, ?_⟩
  · intro e trT hE
    rw [hT] at hE
    have h1 : outcome = Except.error e := congrArg Prod.fst (Option.some.inj hE)
    rw [h1]
    by_cases hm : msgIndicatesNotFound e.message
    · simp [finishRun, hm]
    · simp [finishRun, hm]
  · intro b trT hB
    rw [hT] at hB
    have h1 : outcome = Except.ok b := congrArg Prod.fst (Option.some.inj hB)
    rw [h1]
    simp [finishRun]

/-- Witness for C9: a failing run from the session holding an earlier asset
starts by clearing the error and keeps the old asset in place. -/
theorem generateAnimation_frame_effects_witness :
    (sVidW.selectedImage = some imgW
      ∧ generateAnimation envBoom 1 sVidW = some (sVidFail, trFailW)
      ∧ runTry envBoom 1 (buildRequest imgW sVidW.prompt sVidW.aspectRatio) =
          some (Except.error { message := some "boom" },
            [Event.displayStep uploadingMsg, Event.submitCall reqW]))
    ∧ trFailW.head? = some Event.clearError
    ∧ sVidFail.generatedVideoUrl = sVidW.generatedVideoUrl :=
  ⟨⟨rfl, by decide, by decide⟩,
    (generateAnimation_frame_effects envBoom 1 sVidW imgW sVidFail trFailW
      rfl (by decide)).1,
    (generateAnimation_frame_effects envBoom 1 sVidW imgW sVidFail trFailW
      rfl (by decide)).2.1 { message := some "boom" }
      [Event.displayStep uploadingMsg, Event.submitCall reqW] (by decide)⟩

/-- **C10**: the default-prompt fallback applies exactly when the prompt is
the empty string; any non-empty prompt — whitespace included — is sent
verbatim after the fixed template, with no trimming or normalisation. -/
theorem prompt_fallback_iff_empty (img ar p : String) :
    (p = "" → (buildRequest img p ar).prompt = promptTemplate ++ defaultMotion)
    ∧ (p ≠ "" → (buildRequest img p ar).prompt = promptTemplate ++ p) := by
  constructor
  · intro h
    simp [buildRequest, h]
  · intro h
    simp [buildRequest, h]

/-- Witness for C10 at the empty prompt and a whitespace-only prompt. -/
theorem prompt_fallback_iff_empty_witness :
    (("" : String) = "" ∧ ("   " : String) ≠ "")
    ∧ (buildRequest imgW "" "9:16").prompt = promptTemplate ++ defaultMotion
    ∧ (buildRequest imgW "   " "9:16").prompt = promptTemplate ++ "   " :=
  ⟨⟨rfl, by decide⟩,
    (prompt_fallback_iff_empty imgW "9:16" "").1 rfl,
    (prompt_fallback_iff_empty imgW "9:16" "   ").2 (by decide)⟩

end AvatarAnimator
